import Mathlib

/-!
Shallow embedding of `src/index.py`, a demo OTP (one-time password)
issuance and verification service.

Modelling conventions:
* `datetime.now()` is modelled as an explicit time parameter `now : Nat`
  (seconds since some epoch); `timedelta(minutes = m)` is `m * 60` seconds.
* `random.choices(string.digits, k = length)` is modelled by an oracle
  `randIdx : Nat → Nat` giving, for each position, an index into
  `string.digits`; the index is reduced `% 10` so any oracle is valid.
* The global dict `otp_store : Dict[str, Dict[str, Dict]]` is modelled as a
  nested association list passed in and out of every operation.  Python
  dict assignment replaces the value of an existing key in place and
  appends a fresh key at the end; `del` removes the (unique) entry.
* Python default arguments (`length = 6`, `expiry_minutes = 5`) are passed
  explicitly at each call site, matching the source's call sites which all
  use the defaults.
* Pydantic `device_id : Optional[str] = "default-device"` together with
  `request.device_id or "default-device"` means: an absent or null
  device id, and also an empty string (falsy in Python), becomes
  `"default-device"`.  We model the input as `Option String` where `none`
  is absent-or-null.
* Python `str.strip()` is modelled by `pyStrip`, dropping leading and
  trailing whitespace characters (the common ASCII whitespace set; the
  rarer Unicode whitespace Python also strips is immaterial here).
-/

namespace OTPService

/-- One stored OTP entry: the dict value in
`otp_store[phone_number][device_id]` (src/index.py lines 70-75). -/
structure OTPData where
  otp : String
  created_at : Nat
  attempts : Nat
  verified : Bool
deriving DecidableEq

/-- The inner dict `Dict[str, Dict]`: device id to OTP data. -/
abbrev DeviceMap := List (String × OTPData)

/-- The global `otp_store : Dict[str, Dict[str, Dict]]` (line 29). -/
abbrev OtpStore := List (String × DeviceMap)

/-- Python dict lookup: `m[k]` / `m.get(k)`, first (unique) matching key. -/
def dlookup {β : Type} (k : String) : List (String × β) → Option β
  | [] => none
  | (k1, v) :: rest => if k1 = k then some v else dlookup k rest

/-- Python dict assignment `m[k] = v`: replace in place if the key exists,
append at the end otherwise. -/
def dinsert {β : Type} (k : String) (v : β) : List (String × β) → List (String × β)
  | [] => [(k, v)]
  | (k1, v1) :: rest => if k1 = k then (k, v) :: rest else (k1, v1) :: dinsert k v rest

/-- Python dict deletion `del m[k]`: drop the (unique) entry for `k`. -/
def derase {β : Type} (k : String) : List (String × β) → List (String × β)
  | [] => []
  | (k1, v1) :: rest => if k1 = k then rest else (k1, v1) :: derase k rest

/-- Two-level lookup `otp_store[phone][device]`; `none` exactly when
`phone not in otp_store or device not in otp_store[phone]`. -/
def dlookup2 (phone device : String) (store : OtpStore) : Option OTPData :=
  match dlookup phone store with
  | none => none
  | some dm => dlookup device dm

/-- The common ASCII whitespace characters Python's `str.strip()` removes. -/
def pyIsSpace (c : Char) : Bool :=
  c = ' ' || c = '\t' || c = '\n' || c = '\r' || c = '\x0b' || c = '\x0c'

/-- Python `s.strip()`: drop leading and trailing whitespace. -/
def pyStrip (s : String) : String :=
  String.mk (((s.data.dropWhile pyIsSpace).reverse.dropWhile pyIsSpace).reverse)

/-- `request.device_id or "default-device"` under the pydantic default:
absent/null and empty-string device ids become the sentinel. -/
def orDefaultDevice (device_input : Option String) : String :=
  match device_input with
  | none => "default-device"
  | some s => if s = "" then "default-device" else s

/-- `string.digits` from the Python standard library. -/
def string_digits : List Char := "0123456789".toList

/-- `generate_otp` (lines 46-47): `''.join(random.choices(string.digits, k=length))`.
The random choice at position `i` is `string_digits[randIdx i % 10]`. -/
def generate_otp (randIdx : Nat → Nat) (length : Nat) : String :=
  String.mk ((List.range length).map
    (fun i => string_digits.getD (randIdx i % string_digits.length) '0'))

/-- `is_otp_expired` (lines 49-50):
`datetime.now() > created_time + timedelta(minutes=expiry_minutes)`. -/
def is_otp_expired (now created_time expiry_minutes : Nat) : Bool :=
  decide (created_time + expiry_minutes * 60 < now)

/-- Outcome of `POST /send-otp`. -/
inductive SendResult where
  | invalidInput
  | success (otp : String)
deriving DecidableEq

/-- `send_otp` (lines 58-80). -/
def send_otp (randIdx : Nat → Nat) (now : Nat) (phone_input : String)
    (device_input : Option String) (store : OtpStore) : SendResult × OtpStore :=
  let phone_number := pyStrip phone_input
  let device_id := orDefaultDevice device_input
  if phone_number = "" || phone_number.length < 10 then
    (SendResult.invalidInput, store)
  else
    let store1 := if (dlookup phone_number store).isSome then store
                  else dinsert phone_number [] store
    let otp := generate_otp randIdx 6
    let dm := (dlookup phone_number store1).getD []
    (SendResult.success otp,
      dinsert phone_number
        (dinsert device_id
          { otp := otp, created_at := now, attempts := 0, verified := false } dm)
        store1)

/-- Outcome of `POST /verify-otp`: the three HTTP error kinds plus the two
protocol-level outcomes.  `mismatch` carries the reported
`remaining_attempts = 3 - attempts` (after the increment). -/
inductive VerifyResult where
  | notFound
  | expired
  | tooManyAttempts
  | matched
  | mismatch (remaining : Int)
deriving DecidableEq

/-- `del otp_store[phone][device]` followed by
`if not otp_store[phone]: del otp_store[phone]` (lines 95-97, 101-103, 126-128). -/
def storeDelete (phone device : String) (store : OtpStore) : OtpStore :=
  match dlookup phone store with
  | none => store
  | some dm =>
    let dm2 := derase device dm
    if dm2 = [] then derase phone store else dinsert phone dm2 store

/-- In-place field update `otp_store[phone][device] = r` used by the
`verified = True` and `attempts += 1` branches (lines 107, 110). -/
def storeSet (phone device : String) (r : OTPData) (store : OtpStore) : OtpStore :=
  match dlookup phone store with
  | none => store
  | some dm => dinsert phone (dinsert device r dm) store

/-- `verify_otp` (lines 83-115). -/
def verify_otp (now : Nat) (phone_input : String) (device_input : Option String)
    (otp_input : String) (store : OtpStore) : VerifyResult × OtpStore :=
  let phone_number := pyStrip phone_input
  let device_id := orDefaultDevice device_input
  let otp := pyStrip otp_input
  match dlookup2 phone_number device_id store with
  | none => (VerifyResult.notFound, store)
  | some stored_data =>
    if is_otp_expired now stored_data.created_at 5 then
      (VerifyResult.expired, storeDelete phone_number device_id store)
    else if stored_data.attempts ≥ 3 then
      (VerifyResult.tooManyAttempts, storeDelete phone_number device_id store)
    else if stored_data.otp = otp then
      (VerifyResult.matched,
        storeSet phone_number device_id { stored_data with verified := true } store)
    else
      (VerifyResult.mismatch (3 - ((stored_data.attempts : Int) + 1)),
        storeSet phone_number device_id
          { stored_data with attempts := stored_data.attempts + 1 } store)

/-- `clear_otp` (lines 118-130): returns whether a record existed (the two
message branches) and the resulting store. -/
def clear_otp (phone_input : String) (device_input : Option String)
    (store : OtpStore) : Bool × OtpStore :=
  let phone_number := pyStrip phone_input
  let device_id := orDefaultDevice device_input
  match dlookup2 phone_number device_id store with
  | some _ => (true, storeDelete phone_number device_id store)
  | none => (false, store)

/-- The per-record info computed by `get_all_otps` (lines 139-145): the raw
fields plus `expired` computed at query time. -/
structure OTPInfo where
  otp : String
  created_at : Nat
  attempts : Nat
  verified : Bool
  expired : Bool
deriving DecidableEq

/-- The record-to-info computation of `get_all_otps` (lines 139-145). -/
def record_info (now : Nat) (d : OTPData) : OTPInfo :=
  { otp := d.otp, created_at := d.created_at, attempts := d.attempts,
    verified := d.verified, expired := is_otp_expired now d.created_at 5 }

/-- `get_all_otps` (lines 133-146): snapshot of every record. -/
def get_all_otps (now : Nat) (store : OtpStore) : List (String × List (String × OTPInfo)) :=
  store.map (fun pd => (pd.1, pd.2.map (fun dv => (dv.1, record_info now dv.2))))

/-- Modelled from the spec: the Status operation (route
`GET /otp-status/...`) is not present in `src/index.py`; only the other
routes of the request layer are.  Per the spec it is read-only — it does
not mutate or purge even if the record is logically expired — and returns
the record's raw fields plus a computed `expired` boolean derived at query
time (the same computed fields as ListAll, i.e. `record_info`), or an
absence flag when no record exists. -/
def otp_status (now : Nat) (phone_input : String) (device_input : Option String)
    (store : OtpStore) : Option OTPInfo × OtpStore :=
  let phone_number := pyStrip phone_input
  let device_id := orDefaultDevice device_input
  match dlookup2 phone_number device_id store with
  | some d => (some (record_info now d), store)
  | none => (none, store)

/-- Well-formedness a Python dict guarantees by construction: no duplicate
keys at either level of the store. -/
def KeysNodup {β : Type} (m : List (String × β)) : Prop :=
  (m.map Prod.fst).Nodup

instance {β : Type} (m : List (String × β)) : Decidable (KeysNodup m) := by
  unfold KeysNodup; infer_instance

/-- Store well-formedness: unique phone keys and unique device keys. -/
def StoreWF (s : OtpStore) : Prop :=
  KeysNodup s ∧ ∀ pd ∈ s, KeysNodup pd.2

instance (s : OtpStore) : Decidable (StoreWF s) := by
  unfold StoreWF; infer_instance

/-- The invariant of claim C10: every phone key present in the store maps
to a non-empty device map. -/
def NoEmptyPhone (s : OtpStore) : Prop :=
  ∀ pd ∈ s, pd.2 ≠ []

instance (s : OtpStore) : Decidable (NoEmptyPhone s) := by
  unfold NoEmptyPhone; infer_instance

/-- A concrete fresh record, used to instantiate the general theorems. -/
def demoRecord : OTPData :=
  { otp := "123456", created_at := 0, attempts := 0, verified := false }

/-- A concrete store holding `demoRecord` under the default device. -/
def demoStore : OtpStore := [("5551234567", [("default-device", demoRecord)])]

/-- A concrete record whose attempt cap is already reached. -/
def demoRecordExhausted : OTPData :=
  { otp := "123456", created_at := 0, attempts := 3, verified := false }

/-- A concrete store holding `demoRecordExhausted`. -/
def demoStoreExhausted : OtpStore :=
  [("5551234567", [("default-device", demoRecordExhausted)])]

/-! ### Lemmas about the dictionary operations -/

theorem dlookup_dinsert_self {β : Type} (k : String) (v : β) (m : List (String × β)) :
    dlookup k (dinsert k v m) = some v := by
  induction m with
  | nil => simp [dinsert, dlookup]
  | cons hd t ih =>
    obtain ⟨k1, v1⟩ := hd
    by_cases h : k1 = k
    · simp [dinsert, dlookup, h]
    · simp [dinsert, dlookup, h, ih]

theorem dlookup_dinsert_ne {β : Type} {k1 k : String} (v : β) (m : List (String × β))
    (hk : k1 ≠ k) : dlookup k1 (dinsert k v m) = dlookup k1 m := by
  induction m with
  | nil => simp [dinsert, dlookup, Ne.symm hk]
  | cons hd t ih =>
    obtain ⟨k2, v2⟩ := hd
    by_cases h : k2 = k
    · subst h
      simp [dinsert, dlookup, Ne.symm hk]
    · by_cases h1 : k2 = k1 <;> simp [dinsert, dlookup, h, h1, hk, ih]

theorem dlookup_eq_none_of_not_mem_keys {β : Type} {k : String} {m : List (String × β)}
    (h : k ∉ m.map Prod.fst) : dlookup k m = none := by
  induction m with
  | nil => rfl
  | cons hd t ih =>
    obtain ⟨k1, v1⟩ := hd
    simp only [List.map_cons, List.mem_cons] at h
    push_neg at h
    simp [dlookup, Ne.symm h.1, ih h.2]

theorem mem_of_dlookup_some {β : Type} {k : String} {v : β} {m : List (String × β)}
    (h : dlookup k m = some v) : (k, v) ∈ m := by
  induction m with
  | nil => simp [dlookup] at h
  | cons hd t ih =>
    obtain ⟨k1, v1⟩ := hd
    by_cases h1 : k1 = k
    · subst h1
      simp [dlookup] at h
      simp [h]
    · simp [dlookup, h1] at h
      exact List.mem_cons_of_mem _ (ih h)

theorem dlookup_derase_self {β : Type} {k : String} {m : List (String × β)}
    (h : KeysNodup m) : dlookup k (derase k m) = none := by
  induction m with
  | nil => rfl
  | cons hd t ih =>
    obtain ⟨k1, v1⟩ := hd
    simp only [KeysNodup, List.map_cons, List.nodup_cons] at h
    by_cases h1 : k1 = k
    · subst h1
      simp only [derase, if_pos rfl]
      exact dlookup_eq_none_of_not_mem_keys h.1
    · simp [derase, h1, dlookup, ih h.2]

theorem dlookup_derase_ne {β : Type} {k1 k : String} (m : List (String × β))
    (hk : k1 ≠ k) : dlookup k1 (derase k m) = dlookup k1 m := by
  induction m with
  | nil => rfl
  | cons hd t ih =>
    obtain ⟨k2, v2⟩ := hd
    by_cases h : k2 = k
    · subst h
      simp [derase, dlookup, Ne.symm hk]
    · by_cases h1 : k2 = k1 <;> simp [derase, dlookup, h, h1, hk, ih]

theorem mem_dinsert {β : Type} {x : String × β} {k : String} {v : β}
    {m : List (String × β)} (h : x ∈ dinsert k v m) : x = (k, v) ∨ x ∈ m := by
  induction m with
  | nil => simpa [dinsert] using h
  | cons hd t ih =>
    obtain ⟨k1, v1⟩ := hd
    by_cases h1 : k1 = k
    · simp only [dinsert, if_pos h1, List.mem_cons] at h
      rcases h with h | h
      · exact Or.inl h
      · exact Or.inr (List.mem_cons_of_mem _ h)
    · simp only [dinsert, if_neg h1, List.mem_cons] at h
      rcases h with h | h
      · exact Or.inr (by simp [h])
      · rcases ih h with h2 | h2
        · exact Or.inl h2
        · exact Or.inr (List.mem_cons_of_mem _ h2)

theorem mem_dinsert_strong {β : Type} {x : String × β} {k : String} {v : β}
    {m : List (String × β)} (hm : KeysNodup m) (h : x ∈ dinsert k v m) :
    x = (k, v) ∨ (x ∈ m ∧ x.1 ≠ k) := by
  induction m with
  | nil => simp [dinsert] at h; exact Or.inl h
  | cons hd t ih =>
    obtain ⟨k1, v1⟩ := hd
    simp only [KeysNodup, List.map_cons, List.nodup_cons] at hm
    by_cases h1 : k1 = k
    · subst h1
      simp [dinsert] at h
      rcases h with hh | hh
      · exact Or.inl hh
      · refine Or.inr ⟨List.mem_cons_of_mem _ hh, fun hx => hm.1 ?_⟩
        rw [← hx]
        exact List.mem_map_of_mem Prod.fst hh
    · simp only [dinsert, if_neg h1, List.mem_cons] at h
      rcases h with h | h
      · exact Or.inr ⟨by simp [h], by simp [h, h1]⟩
      · rcases ih hm.2 h with h2 | h2
        · exact Or.inl h2
        · exact Or.inr ⟨List.mem_cons_of_mem _ h2.1, h2.2⟩

theorem mem_derase {β : Type} {x : String × β} {k : String} {m : List (String × β)}
    (h : x ∈ derase k m) : x ∈ m := by
  induction m with
  | nil => simp [derase] at h
  | cons hd t ih =>
    obtain ⟨k1, v1⟩ := hd
    by_cases h1 : k1 = k
    · simp only [derase, if_pos h1] at h
      exact List.mem_cons_of_mem _ h
    · simp only [derase, if_neg h1, List.mem_cons] at h
      rcases h with h | h
      · simp [h]
      · exact List.mem_cons_of_mem _ (ih h)

theorem keys_dinsert {β : Type} {x k : String} {v : β} {m : List (String × β)}
    (h : x ∈ (dinsert k v m).map Prod.fst) : x = k ∨ x ∈ m.map Prod.fst := by
  simp only [List.mem_map] at h
  obtain ⟨y, hy, hx⟩ := h
  rcases mem_dinsert hy with h1 | h1
  · left; rw [← hx, h1]
  · right; exact hx ▸ List.mem_map_of_mem Prod.fst h1

theorem keysNodup_dinsert {β : Type} (k : String) (v : β) {m : List (String × β)}
    (h : KeysNodup m) : KeysNodup (dinsert k v m) := by
  induction m with
  | nil => simp [dinsert, KeysNodup]
  | cons hd t ih =>
    obtain ⟨k1, v1⟩ := hd
    simp only [KeysNodup, List.map_cons, List.nodup_cons] at h
    by_cases h1 : k1 = k
    · subst h1
      simpa [dinsert, KeysNodup] using h
    · have ht := ih h.2
      simp only [dinsert, if_neg h1, KeysNodup, List.map_cons, List.nodup_cons]
      refine ⟨fun hx => ?_, ht⟩
      rcases keys_dinsert hx with h2 | h2
      · exact h1 h2
      · exact h.1 h2

theorem keys_derase_sublist {β : Type} (k : String) (m : List (String × β)) :
    ((derase k m).map Prod.fst).Sublist (m.map Prod.fst) := by
  induction m with
  | nil => simp [derase]
  | cons hd t ih =>
    obtain ⟨k1, v1⟩ := hd
    by_cases h1 : k1 = k
    · simp only [derase, if_pos h1, List.map_cons]
      exact List.sublist_cons_self _ _
    · simp only [derase, if_neg h1, List.map_cons]
      exact List.Sublist.cons₂ _ ih

theorem keysNodup_derase {β : Type} (k : String) {m : List (String × β)}
    (h : KeysNodup m) : KeysNodup (derase k m) :=
  List.Nodup.sublist (keys_derase_sublist k m) h

theorem dinsert_ne_nil {β : Type} (k : String) (v : β) (m : List (String × β)) :
    dinsert k v m ≠ [] := by
  cases m with
  | nil => simp [dinsert]
  | cons hd t =>
    obtain ⟨k1, v1⟩ := hd
    by_cases h : k1 = k <;> simp [dinsert, h]

/-! ### Lemmas about the two-level store operations -/

theorem dlookup2_dinsert_dinsert (p d : String) (r : OTPData) (dm : DeviceMap)
    (s : OtpStore) : dlookup2 p d (dinsert p (dinsert d r dm) s) = some r := by
  unfold dlookup2
  rw [dlookup_dinsert_self]
  exact dlookup_dinsert_self d r dm

theorem dlookup2_storeSet_self {p : String} {s : OtpStore} {dm : DeviceMap}
    (d : String) (r : OTPData) (hp : dlookup p s = some dm) :
    dlookup2 p d (storeSet p d r s) = some r := by
  unfold storeSet
  rw [hp]
  exact dlookup2_dinsert_dinsert p d r dm s

theorem dlookup2_storeDelete_self {p d : String} {s : OtpStore}
    (hwf : StoreWF s) : dlookup2 p d (storeDelete p d s) = none := by
  unfold storeDelete
  cases hp : dlookup p s with
  | none => simp [dlookup2, hp]
  | some dm =>
    have hdm : KeysNodup dm := hwf.2 (p, dm) (mem_of_dlookup_some hp)
    by_cases hnil : derase d dm = []
    · simp only [hnil, if_pos rfl]
      simp [dlookup2, dlookup_derase_self hwf.1]
    · simp only [if_neg hnil]
      simp only [dlookup2, dlookup_dinsert_self]
      exact dlookup_derase_self hdm

/-! ### Lemmas about codes and stripping -/

theorem mem_digits_isDigit : ∀ c ∈ string_digits, c.isDigit = true := by decide

theorem mem_digits_not_space : ∀ c ∈ string_digits, pyIsSpace c = false := by decide

theorem getD_digits_mem (n : Nat) :
    string_digits.getD (n % string_digits.length) '0' ∈ string_digits := by
  have h : n % string_digits.length < string_digits.length :=
    Nat.mod_lt _ (by decide)
  rw [List.getD_eq_getElem _ _ h]
  exact List.getElem_mem h

theorem mem_generate_otp_data {c : Char} {randIdx : Nat → Nat} {len : Nat}
    (h : c ∈ (generate_otp randIdx len).data) : c ∈ string_digits := by
  unfold generate_otp at h
  simp only [String.data] at h
  simp only [List.mem_map, List.mem_range] at h
  obtain ⟨i, _, hi⟩ := h
  rw [← hi]
  exact getD_digits_mem (randIdx i)

theorem dropWhile_eq_self_of_all {p : Char → Bool} {l : List Char}
    (h : ∀ c ∈ l, p c = false) : l.dropWhile p = l := by
  cases l with
  | nil => rfl
  | cons a t =>
    rw [List.dropWhile_cons, h a (by simp)]
    simp

theorem pyStrip_eq_self_of_no_space {l : List Char}
    (h : ∀ c ∈ l, pyIsSpace c = false) : pyStrip (String.mk l) = String.mk l := by
  unfold pyStrip
  have h0 : (String.mk l).data = l := rfl
  rw [h0, dropWhile_eq_self_of_all h,
    dropWhile_eq_self_of_all (fun c hc => h c (List.mem_reverse.mp hc)),
    List.reverse_reverse]

theorem pyStrip_generate_otp (randIdx : Nat → Nat) (len : Nat) :
    pyStrip (generate_otp randIdx len) = generate_otp randIdx len := by
  have h : ∀ c ∈ (generate_otp randIdx len).data, pyIsSpace c = false :=
    fun c hc => mem_digits_not_space c (mem_generate_otp_data hc)
  exact pyStrip_eq_self_of_no_space h

/-! ### Branch characterizations of the endpoint operations -/

theorem dlookup2_some_phone {p d : String} {s : OtpStore} {r : OTPData}
    (h : dlookup2 p d s = some r) :
    ∃ dm, dlookup p s = some dm ∧ dlookup d dm = some r := by
  unfold dlookup2 at h
  split at h
  · exact absurd h (by simp)
  · rename_i dm hp
    exact ⟨dm, hp, h⟩

theorem verify_otp_found {now : Nat} {p : String} {dIn : Option String}
    {code : String} {s : OtpStore} {r : OTPData}
    (hrec : dlookup2 (pyStrip p) (orDefaultDevice dIn) s = some r) :
    verify_otp now p dIn code s =
      if is_otp_expired now r.created_at 5 then
        (VerifyResult.expired, storeDelete (pyStrip p) (orDefaultDevice dIn) s)
      else if r.attempts ≥ 3 then
        (VerifyResult.tooManyAttempts, storeDelete (pyStrip p) (orDefaultDevice dIn) s)
      else if r.otp = pyStrip code then
        (VerifyResult.matched,
          storeSet (pyStrip p) (orDefaultDevice dIn) { r with verified := true } s)
      else
        (VerifyResult.mismatch (3 - ((r.attempts : Int) + 1)),
          storeSet (pyStrip p) (orDefaultDevice dIn)
            { r with attempts := r.attempts + 1 } s) := by
  simp only [verify_otp, hrec]

theorem verify_otp_not_found {now : Nat} {p : String} {dIn : Option String}
    {code : String} {s : OtpStore}
    (hrec : dlookup2 (pyStrip p) (orDefaultDevice dIn) s = none) :
    verify_otp now p dIn code s = (VerifyResult.notFound, s) := by
  simp only [verify_otp, hrec]

theorem send_otp_invalid {randIdx : Nat → Nat} {now : Nat} {p : String}
    {dIn : Option String} {s : OtpStore}
    (h : pyStrip p = "" ∨ (pyStrip p).length < 10) :
    send_otp randIdx now p dIn s = (SendResult.invalidInput, s) := by
  have hc : (decide (pyStrip p = "") || decide ((pyStrip p).length < 10)) = true := by
    rcases h with h | h <;> simp [h]
  simp only [send_otp, hc, if_true]

theorem send_otp_valid {randIdx : Nat → Nat} {now : Nat} {p : String}
    {dIn : Option String} {s : OtpStore}
    (h1 : ¬ pyStrip p = "") (h2 : ¬ (pyStrip p).length < 10) :
    (send_otp randIdx now p dIn s).1 = SendResult.success (generate_otp randIdx 6) ∧
    dlookup2 (pyStrip p) (orDefaultDevice dIn) (send_otp randIdx now p dIn s).2 =
      some { otp := generate_otp randIdx 6, created_at := now, attempts := 0,
             verified := false } := by
  have hc : (decide (pyStrip p = "") || decide ((pyStrip p).length < 10)) = false := by
    simp [h1, h2]
  constructor
  · simp only [send_otp, hc, Bool.false_eq_true, if_false]
  · simp only [send_otp, hc, Bool.false_eq_true, if_false]
    exact dlookup2_dinsert_dinsert _ _ _ _ _

theorem is_otp_expired_self (now : Nat) : is_otp_expired now now 5 = false := by
  rw [is_otp_expired, decide_eq_false_iff_not]
  omega

/-! ### Claim theorems -/

/-- Claim C8: for every call, the code generated by Issue is a string of
exactly 6 characters, each of which is a decimal digit 0-9. -/
theorem c8_generated_code_shape (randIdx : Nat → Nat) :
    (generate_otp randIdx 6).length = 6 ∧
    (generate_otp randIdx 6).data.all Char.isDigit = true := by
  constructor
  · simp [generate_otp, String.length]
  · rw [List.all_eq_true]
    intro c hc
    exact mem_digits_isDigit c (mem_generate_otp_data hc)

/-- Claim C2: Status is read-only — for every ledger state and key it
leaves the ledger unchanged (no purge even when the record is logically
expired, since `record_info` computes `expired` without mutating) and
returns the record's raw fields plus the query-time `expired` boolean, or
`none` when no record exists. -/
theorem c2_status_read_only (now : Nat) (p : String) (dIn : Option String)
    (s : OtpStore) :
    (otp_status now p dIn s).2 = s ∧
    (otp_status now p dIn s).1 =
      Option.map (record_info now) (dlookup2 (pyStrip p) (orDefaultDevice dIn) s) := by
  cases h : dlookup2 (pyStrip p) (orDefaultDevice dIn) s with
  | none => simp [otp_status, h]
  | some d => simp [otp_status, h]

/-- Claim C4: a record is expired exactly when `now > created_at + 5 * 60`
(strict inequality), and for every expired record the next Verify call on
its key fails with Expired and deletes the record from the ledger. -/
theorem c4_expired_record_purged (now : Nat) (p : String) (dIn : Option String)
    (code : String) (s : OtpStore) (r : OTPData) (hwf : StoreWF s)
    (hrec : dlookup2 (pyStrip p) (orDefaultDevice dIn) s = some r) :
    (is_otp_expired now r.created_at 5 = true ↔ r.created_at + 5 * 60 < now) ∧
    (is_otp_expired now r.created_at 5 = true →
      (verify_otp now p dIn code s).1 = VerifyResult.expired ∧
      dlookup2 (pyStrip p) (orDefaultDevice dIn) (verify_otp now p dIn code s).2 =
        none) := by
  constructor
  · rw [is_otp_expired]
    exact decide_eq_true_iff
  · intro hexp
    rw [verify_otp_found hrec, if_pos hexp]
    exact ⟨rfl, dlookup2_storeDelete_self hwf⟩

/-- Witness for C4 at a concrete expired store: `created_at = 0`,
queried at `now = 301 > 300`. -/
theorem c4_witness :
    (is_otp_expired 301 demoRecord.created_at 5 = true ↔
      demoRecord.created_at + 5 * 60 < 301) ∧
    ((verify_otp 301 "5551234567" none "000000" demoStore).1 = VerifyResult.expired ∧
      dlookup2 (pyStrip "5551234567") (orDefaultDevice none)
        (verify_otp 301 "5551234567" none "000000" demoStore).2 = none) := by
  have h := c4_expired_record_purged 301 "5551234567" none "000000" demoStore
    demoRecord (by decide) (by decide)
  exact ⟨h.1, h.2 (by decide)⟩

/-- Claim C6: Issue fails with InvalidInput iff the phone number, after
trimming, is empty or shorter than 10 characters; for every phone of at
least 10 trimmed characters, Issue succeeds and stores a fresh record. -/
theorem c6_issue_validation (randIdx : Nat → Nat) (now : Nat) (p : String)
    (dIn : Option String) (s : OtpStore) :
    ((send_otp randIdx now p dIn s).1 = SendResult.invalidInput ↔
      (pyStrip p = "" ∨ (pyStrip p).length < 10)) ∧
    (10 ≤ (pyStrip p).length →
      (send_otp randIdx now p dIn s).1 = SendResult.success (generate_otp randIdx 6) ∧
      dlookup2 (pyStrip p) (orDefaultDevice dIn) (send_otp randIdx now p dIn s).2 =
        some { otp := generate_otp randIdx 6, created_at := now, attempts := 0,
               verified := false }) := by
  constructor
  · constructor
    · intro hfst
      by_contra hcon
      push_neg at hcon
      obtain ⟨hc1, hc2⟩ := hcon
      have h2 : ¬ (pyStrip p).length < 10 := by omega
      have h := @send_otp_valid randIdx now p dIn s hc1 h2
      rw [h.1] at hfst
      exact SendResult.noConfusion hfst
    · intro hval
      rw [send_otp_invalid hval]
  · intro hlen
    have h1 : ¬ pyStrip p = "" := by
      intro he
      rw [he] at hlen
      simp [String.length] at hlen
    have h2 : ¬ (pyStrip p).length < 10 := by omega
    exact @send_otp_valid randIdx now p dIn s h1 h2

/-- Claim C1: on the active path (record present, not expired), Verify with
a wrong code increments `attempts` by exactly 1, keeps the record, and
reports `3 - attempts` remaining (possibly 0); once `attempts ≥ 3`, the
next Verify call — regardless of its code — fails with TooManyAttempts and
removes the record.  Exhaustion is thus detected one call after the third
failure, not during it. -/
theorem c1_wrong_code_attempts (now : Nat) (p : String) (dIn : Option String)
    (code : String) (s : OtpStore) (r : OTPData) (hwf : StoreWF s)
    (hrec : dlookup2 (pyStrip p) (orDefaultDevice dIn) s = some r)
    (hexp : is_otp_expired now r.created_at 5 = false) :
    (r.attempts < 3 → r.otp ≠ pyStrip code →
      verify_otp now p dIn code s =
        (VerifyResult.mismatch (3 - ((r.attempts : Int) + 1)),
          storeSet (pyStrip p) (orDefaultDevice dIn)
            { r with attempts := r.attempts + 1 } s) ∧
      dlookup2 (pyStrip p) (orDefaultDevice dIn) (verify_otp now p dIn code s).2 =
        some { r with attempts := r.attempts + 1 }) ∧
    (3 ≤ r.attempts →
      (verify_otp now p dIn code s).1 = VerifyResult.tooManyAttempts ∧
      dlookup2 (pyStrip p) (orDefaultDevice dIn) (verify_otp now p dIn code s).2 =
        none) := by
  constructor
  · intro hlt hne
    have heq : verify_otp now p dIn code s =
        (VerifyResult.mismatch (3 - ((r.attempts : Int) + 1)),
          storeSet (pyStrip p) (orDefaultDevice dIn)
            { r with attempts := r.attempts + 1 } s) := by
      rw [verify_otp_found hrec, if_neg (by simp [hexp]), if_neg (by omega),
        if_neg hne]
    refine ⟨heq, ?_⟩
    rw [heq]
    obtain ⟨dm, hp, _⟩ := dlookup2_some_phone hrec
    exact dlookup2_storeSet_self _ _ hp
  · intro hge
    rw [verify_otp_found hrec, if_neg (by simp [hexp]), if_pos hge]
    exact ⟨rfl, dlookup2_storeDelete_self hwf⟩

/-- Witness for C1: a wrong code on a fresh record yields Mismatch with 2
remaining; a call on an exhausted record yields TooManyAttempts. -/
theorem c1_witness :
    verify_otp 0 "5551234567" none "000000" demoStore =
      (VerifyResult.mismatch (3 - ((demoRecord.attempts : Int) + 1)),
        storeSet (pyStrip "5551234567") (orDefaultDevice none)
          { demoRecord with attempts := demoRecord.attempts + 1 } demoStore) ∧
    (verify_otp 0 "5551234567" none "000000" demoStoreExhausted).1 =
      VerifyResult.tooManyAttempts := by
  have h := c1_wrong_code_attempts 0 "5551234567" none "000000" demoStore
    demoRecord (by decide) (by decide) (by decide)
  have h2 := c1_wrong_code_attempts 0 "5551234567" none "000000"
    demoStoreExhausted demoRecordExhausted (by decide) (by decide) (by decide)
  exact ⟨(h.1 (by decide) (by decide)).1, (h2.2 (by decide)).1⟩

/-- Claim C9: Verify checks expiry before exhaustion — on a record that is
both expired and exhausted, the next Verify call fails with Expired, not
TooManyAttempts, and deletes the record. -/
theorem c9_expiry_checked_first (now : Nat) (p : String) (dIn : Option String)
    (code : String) (s : OtpStore) (r : OTPData) (hwf : StoreWF s)
    (hrec : dlookup2 (pyStrip p) (orDefaultDevice dIn) s = some r)
    (hexp : is_otp_expired now r.created_at 5 = true)
    (_hexh : 3 ≤ r.attempts) :
    (verify_otp now p dIn code s).1 = VerifyResult.expired ∧
    (verify_otp now p dIn code s).1 ≠ VerifyResult.tooManyAttempts ∧
    dlookup2 (pyStrip p) (orDefaultDevice dIn) (verify_otp now p dIn code s).2 =
      none := by
  rw [verify_otp_found hrec, if_pos hexp]
  exact ⟨rfl, by simp, dlookup2_storeDelete_self hwf⟩

/-- Witness for C9: a record with `attempts = 3` and `created_at = 0`,
verified at `now = 301`, is reported Expired. -/
theorem c9_witness :
    (verify_otp 301 "5551234567" none "123456" demoStoreExhausted).1 =
      VerifyResult.expired ∧
    (verify_otp 301 "5551234567" none "123456" demoStoreExhausted).1 ≠
      VerifyResult.tooManyAttempts ∧
    dlookup2 (pyStrip "5551234567") (orDefaultDevice none)
      (verify_otp 301 "5551234567" none "123456" demoStoreExhausted).2 = none :=
  c9_expiry_checked_first 301 "5551234567" none "123456" demoStoreExhausted
    demoRecordExhausted (by decide) (by decide) (by decide) (by decide)

/-- Claim C3: immediately after a successful Issue, Verify on that key with
the exact returned code yields Matched, sets `verified := true`, and
retains the record in the ledger. -/
theorem c3_match_after_issue (randIdx : Nat → Nat) (now : Nat) (p : String)
    (dIn : Option String) (s : OtpStore) (otp : String) (s1 : OtpStore)
    (h : send_otp randIdx now p dIn s = (SendResult.success otp, s1)) :
    (verify_otp now p dIn otp s1).1 = VerifyResult.matched ∧
    dlookup2 (pyStrip p) (orDefaultDevice dIn) (verify_otp now p dIn otp s1).2 =
      some { otp := otp, created_at := now, attempts := 0, verified := true } := by
  by_cases hval : pyStrip p = "" ∨ (pyStrip p).length < 10
  · exfalso
    rw [send_otp_invalid hval] at h
    exact SendResult.noConfusion (congrArg Prod.fst h)
  · push_neg at hval
    have hv := @send_otp_valid randIdx now p dIn s hval.1 hval.2.not_lt
    have hotp : otp = generate_otp randIdx 6 := by
      have hfst := hv.1
      rw [h] at hfst
      exact SendResult.success.inj hfst
    have hrec : dlookup2 (pyStrip p) (orDefaultDevice dIn) s1 =
        some { otp := generate_otp randIdx 6, created_at := now, attempts := 0,
               verified := false } := by
      have hsnd := hv.2
      rw [h] at hsnd
      exact hsnd
    rw [hotp]
    rw [verify_otp_found hrec, if_neg (by simp [is_otp_expired_self]),
      if_neg (by simp), if_pos (by rw [pyStrip_generate_otp])]
    refine ⟨rfl, ?_⟩
    obtain ⟨dm, hp, _⟩ := dlookup2_some_phone hrec
    exact dlookup2_storeSet_self _ _ hp

/-- Witness for C3: issue with the all-zero random oracle, then verify the
returned code "000000". -/
theorem c3_witness :
    (verify_otp 0 "5551234567" none "000000"
        (send_otp (fun _ => 0) 0 "5551234567" none []).2).1 =
      VerifyResult.matched := by
  have h := c3_match_after_issue (fun _ => 0) 0 "5551234567" none [] "000000"
    (send_otp (fun _ => 0) 0 "5551234567" none []).2 (by decide)
  exact h.1

/-- Witness for C6 at a concrete valid 10-digit phone number. -/
theorem c6_witness :
    ((send_otp (fun i => i) 0 "5551234567" none []).1 = SendResult.invalidInput ↔
      (pyStrip "5551234567" = "" ∨ (pyStrip "5551234567").length < 10)) ∧
    ((send_otp (fun i => i) 0 "5551234567" none []).1 =
        SendResult.success (generate_otp (fun i => i) 6) ∧
      dlookup2 (pyStrip "5551234567") (orDefaultDevice none)
        (send_otp (fun i => i) 0 "5551234567" none []).2 =
        some { otp := generate_otp (fun i => i) 6, created_at := 0, attempts := 0,
               verified := false }) := by
  have h := c6_issue_validation (fun i => i) 0 "5551234567" none []
  exact ⟨h.1, h.2 (by decide)⟩

/-- Claim C7: Clear deletes the record when one exists and is a no-op
otherwise; it reports truthfully whether a record existed; after a Clear
the key is absent, so a second Clear leaves the same state and reports no
removal (idempotence). -/
theorem c7_clear_idempotent (p : String) (dIn : Option String) (s : OtpStore)
    (hwf : StoreWF s) :
    ((clear_otp p dIn s).1 = true ↔
      (dlookup2 (pyStrip p) (orDefaultDevice dIn) s).isSome = true) ∧
    (dlookup2 (pyStrip p) (orDefaultDevice dIn) s = none →
      (clear_otp p dIn s).2 = s) ∧
    dlookup2 (pyStrip p) (orDefaultDevice dIn) (clear_otp p dIn s).2 = none ∧
    (clear_otp p dIn ((clear_otp p dIn s).2)).2 = (clear_otp p dIn s).2 ∧
    (clear_otp p dIn ((clear_otp p dIn s).2)).1 = false := by
  have hmain : ∀ s2 : OtpStore,
      dlookup2 (pyStrip p) (orDefaultDevice dIn) s2 = none →
      clear_otp p dIn s2 = (false, s2) := by
    intro s2 hn
    simp only [clear_otp, hn]
  cases h : dlookup2 (pyStrip p) (orDefaultDevice dIn) s with
  | none =>
    have hc : clear_otp p dIn s = (false, s) := hmain s h
    rw [hc]
    refine ⟨by simp [h], fun _ => rfl, h, ?_, ?_⟩
    · show (clear_otp p dIn s).2 = s
      rw [hc]
    · show (clear_otp p dIn s).1 = false
      rw [hc]
  | some r =>
    have hc : clear_otp p dIn s =
        (true, storeDelete (pyStrip p) (orDefaultDevice dIn) s) := by
      simp only [clear_otp, h]
    have hpost : dlookup2 (pyStrip p) (orDefaultDevice dIn)
        (storeDelete (pyStrip p) (orDefaultDevice dIn) s) = none :=
      dlookup2_storeDelete_self hwf
    have hc2 : clear_otp p dIn (storeDelete (pyStrip p) (orDefaultDevice dIn) s) =
        (false, storeDelete (pyStrip p) (orDefaultDevice dIn) s) :=
      hmain _ hpost
    rw [hc]
    refine ⟨by simp [h], ?_, hpost, ?_, ?_⟩
    · intro hn
      exact Option.noConfusion hn
    · show (clear_otp p dIn (storeDelete (pyStrip p) (orDefaultDevice dIn) s)).2 =
        storeDelete (pyStrip p) (orDefaultDevice dIn) s
      rw [hc2]
    · show (clear_otp p dIn (storeDelete (pyStrip p) (orDefaultDevice dIn) s)).1 =
        false
      rw [hc2]

/-- Witness for C7 on a concrete store with one record. -/
theorem c7_witness :
    (clear_otp "5551234567" none demoStore).1 = true ∧
    dlookup2 (pyStrip "5551234567") (orDefaultDevice none)
      (clear_otp "5551234567" none demoStore).2 = none ∧
    (clear_otp "5551234567" none ((clear_otp "5551234567" none demoStore).2)).2 =
      (clear_otp "5551234567" none demoStore).2 := by
  have h := c7_clear_idempotent "5551234567" none demoStore (by decide)
  exact ⟨h.1.mpr (by decide), h.2.2.1, h.2.2.2.1⟩

/-- Counterexample to C5 as stated: the generated codes are random and may
collide.  With the same random draws on both calls, the second Issue
returns the same code "000000" as the first, and Verify against the first
issued code then yields Matched, not Mismatch. -/
theorem c5_counterexample :
    (send_otp (fun _ => 0) 0 "5551234567" none []).1 =
      SendResult.success "000000" ∧
    (send_otp (fun _ => 0) 1 "5551234567" none
        (send_otp (fun _ => 0) 0 "5551234567" none []).2).1 =
      SendResult.success "000000" ∧
    (verify_otp 1 "5551234567" none "000000"
        (send_otp (fun _ => 0) 1 "5551234567" none
          (send_otp (fun _ => 0) 0 "5551234567" none []).2).2).1 =
      VerifyResult.matched := by
  decide

/-- Claim C5 (amended): issuing a second time fully replaces the prior
record with a fresh one (`attempts = 0`, `verified = false`,
`created_at = now`), so there is at most one live record per key; and
provided the second issued code differs from the first, a subsequent
Verify against the first issued code yields Mismatch, not Matched. -/
theorem c5_reissue_replaces (rnd1 rnd2 : Nat → Nat) (t1 t2 : Nat) (p : String)
    (dIn : Option String) (s : OtpStore) (otp1 otp2 : String) (s1 s2 : OtpStore)
    (h1 : send_otp rnd1 t1 p dIn s = (SendResult.success otp1, s1))
    (h2 : send_otp rnd2 t2 p dIn s1 = (SendResult.success otp2, s2)) :
    dlookup2 (pyStrip p) (orDefaultDevice dIn) s2 =
      some { otp := otp2, created_at := t2, attempts := 0, verified := false } ∧
    (otp1 ≠ otp2 →
      (verify_otp t2 p dIn otp1 s2).1 = VerifyResult.mismatch 2) := by
  by_cases hval : pyStrip p = "" ∨ (pyStrip p).length < 10
  · exfalso
    rw [send_otp_invalid hval] at h1
    exact SendResult.noConfusion (congrArg Prod.fst h1)
  · push_neg at hval
    have hv1 := @send_otp_valid rnd1 t1 p dIn s hval.1 hval.2.not_lt
    have hv2 := @send_otp_valid rnd2 t2 p dIn s1 hval.1 hval.2.not_lt
    have hotp1 : otp1 = generate_otp rnd1 6 := by
      have hfst := hv1.1
      rw [h1] at hfst
      exact SendResult.success.inj hfst
    have hotp2 : otp2 = generate_otp rnd2 6 := by
      have hfst := hv2.1
      rw [h2] at hfst
      exact SendResult.success.inj hfst
    have hrec : dlookup2 (pyStrip p) (orDefaultDevice dIn) s2 =
        some { otp := generate_otp rnd2 6, created_at := t2, attempts := 0,
               verified := false } := by
      have hsnd := hv2.2
      rw [h2] at hsnd
      exact hsnd
    refine ⟨by rw [hotp2]; exact hrec, ?_⟩
    intro hne
    have hne2 : generate_otp rnd2 6 ≠ pyStrip otp1 := by
      rw [hotp1, pyStrip_generate_otp]
      rw [hotp1, hotp2] at hne
      exact fun he => hne he.symm
    rw [verify_otp_found hrec, if_neg (by simp [is_otp_expired_self]),
      if_neg (by simp), if_neg hne2]
    norm_num

/-- Witness for the amended C5: distinct random oracles give codes
"000000" then "111111"; verifying the stale "000000" yields Mismatch. -/
theorem c5_witness :
    dlookup2 (pyStrip "5551234567") (orDefaultDevice none)
      (send_otp (fun _ => 1) 7 "5551234567" none
        (send_otp (fun _ => 0) 3 "5551234567" none []).2).2 =
      some { otp := "111111", created_at := 7, attempts := 0,
             verified := false } ∧
    (verify_otp 7 "5551234567" none "000000"
        (send_otp (fun _ => 1) 7 "5551234567" none
          (send_otp (fun _ => 0) 3 "5551234567" none []).2).2).1 =
      VerifyResult.mismatch 2 := by
  have h := c5_reissue_replaces (fun _ => 0) (fun _ => 1) 3 7 "5551234567" none
    [] "000000" "111111" (send_otp (fun _ => 0) 3 "5551234567" none []).2
    (send_otp (fun _ => 1) 7 "5551234567" none
      (send_otp (fun _ => 0) 3 "5551234567" none []).2).2
    (by decide) (by decide)
  exact ⟨h.1, h.2 (by decide)⟩

/-! ### Preservation of the non-empty-phone invariant (claim C10) -/

theorem noEmptyPhone_storeDelete {s : OtpStore} (hne : NoEmptyPhone s)
    (p d : String) : NoEmptyPhone (storeDelete p d s) := by
  unfold storeDelete
  cases hp : dlookup p s with
  | none => exact hne
  | some dm =>
    by_cases hnil : derase d dm = []
    · simp only [hnil, if_pos rfl]
      intro pd hmem
      exact hne pd (mem_derase hmem)
    · simp only [if_neg hnil]
      intro pd hmem
      rcases mem_dinsert hmem with hh | hh
      · rw [hh]
        exact hnil
      · exact hne pd hh

theorem noEmptyPhone_storeSet {s : OtpStore} (hne : NoEmptyPhone s)
    (p d : String) (r : OTPData) : NoEmptyPhone (storeSet p d r s) := by
  unfold storeSet
  cases hp : dlookup p s with
  | none => exact hne
  | some dm =>
    intro pd hmem
    rcases mem_dinsert hmem with hh | hh
    · rw [hh]
      exact dinsert_ne_nil d r dm
    · exact hne pd hh

theorem send_otp_snd {randIdx : Nat → Nat} {now : Nat} {p : String}
    {dIn : Option String} {s : OtpStore}
    (h1 : ¬ pyStrip p = "") (h2 : ¬ (pyStrip p).length < 10) :
    (send_otp randIdx now p dIn s).2 =
      dinsert (pyStrip p)
        (dinsert (orDefaultDevice dIn)
          { otp := generate_otp randIdx 6, created_at := now, attempts := 0,
            verified := false }
          ((dlookup (pyStrip p)
            (if (dlookup (pyStrip p) s).isSome then s
             else dinsert (pyStrip p) [] s)).getD []))
        (if (dlookup (pyStrip p) s).isSome then s
         else dinsert (pyStrip p) [] s) := by
  have hc : (decide (pyStrip p = "") || decide ((pyStrip p).length < 10)) = false := by
    simp [h1, h2]
  simp only [send_otp, hc, Bool.false_eq_true, if_false]

/-- Claim C10: every operation preserves the invariant that each phone key
present in the ledger maps to a non-empty device map — deleting the last
device entry under a phone also removes the phone key, and Issue never
creates a phone entry without immediately adding a device record under it. -/
theorem c10_no_empty_phone (randIdx : Nat → Nat) (now : Nat) (p : String)
    (dIn : Option String) (code : String) (s : OtpStore)
    (hwf : StoreWF s) (hne : NoEmptyPhone s) :
    NoEmptyPhone (send_otp randIdx now p dIn s).2 ∧
    NoEmptyPhone (verify_otp now p dIn code s).2 ∧
    NoEmptyPhone (clear_otp p dIn s).2 := by
  refine ⟨?_, ?_, ?_⟩
  · by_cases hval : pyStrip p = "" ∨ (pyStrip p).length < 10
    · rw [send_otp_invalid hval]
      exact hne
    · push_neg at hval
      rw [@send_otp_snd randIdx now p dIn s hval.1 hval.2.not_lt]
      intro pd hmem
      by_cases hsome : (dlookup (pyStrip p) s).isSome
      · rw [if_pos hsome] at hmem
        rcases mem_dinsert_strong hwf.1 hmem with hh | hh
        · rw [hh]
          exact dinsert_ne_nil _ _ _
        · exact hne pd hh.1
      · rw [if_neg hsome] at hmem
        have hnodup : KeysNodup (dinsert (pyStrip p) ([] : DeviceMap) s) :=
          keysNodup_dinsert _ _ hwf.1
        rcases mem_dinsert_strong hnodup hmem with hh | hh
        · rw [hh]
          exact dinsert_ne_nil _ _ _
        · rcases mem_dinsert hh.1 with hh2 | hh2
          · exfalso
            exact hh.2 (by rw [hh2])
          · exact hne pd hh2
  · cases hrec : dlookup2 (pyStrip p) (orDefaultDevice dIn) s with
    | none =>
      rw [verify_otp_not_found hrec]
      exact hne
    | some r =>
      rw [verify_otp_found hrec]
      by_cases hexp : is_otp_expired now r.created_at 5 = true
      · rw [if_pos hexp]
        exact noEmptyPhone_storeDelete hne _ _
      · rw [if_neg hexp]
        by_cases hatt : r.attempts ≥ 3
        · rw [if_pos hatt]
          exact noEmptyPhone_storeDelete hne _ _
        · rw [if_neg hatt]
          by_cases hmatch : r.otp = pyStrip code
          · rw [if_pos hmatch]
            exact noEmptyPhone_storeSet hne _ _ _
          · rw [if_neg hmatch]
            exact noEmptyPhone_storeSet hne _ _ _
  · cases hrec : dlookup2 (pyStrip p) (orDefaultDevice dIn) s with
    | none => simp only [clear_otp, hrec]; exact hne
    | some r =>
      simp only [clear_otp, hrec]
      exact noEmptyPhone_storeDelete hne _ _

/-- Witness for C10 on a concrete well-formed store. -/
theorem c10_witness :
    NoEmptyPhone (send_otp (fun _ => 0) 0 "5551234567" none demoStore).2 ∧
    NoEmptyPhone (verify_otp 0 "5551234567" none "000000" demoStore).2 ∧
    NoEmptyPhone (clear_otp "5551234567" none demoStore).2 :=
  c10_no_empty_phone (fun _ => 0) 0 "5551234567" none "000000" demoStore
    (by decide) (by decide)

end OTPService
